import Mathlib

/-!
# GlassTrax-Bridge query engine: a shallow embedding

This file embeds the query compiler, connection manager and executor of
`src/agent/query.py` (class `QueryService`) and the typed HTTP client of
`src/api/services/agent_client.py` (class `AgentClient`) as executable Lean
definitions, and proves the specification claims about them.

Modelling conventions:
* Python strings are Lean `String`s; the handful of Python string methods the
  source uses (`strip`, `upper`, `lower`, `replace(old, new, 1)`, `join`,
  substring containment via `in`) are defined below on `List Char`.
  `upper`/`lower`/`isdigit`/whitespace are modelled on their ASCII behaviour,
  which is all the source relies on.
* Python exceptions raised by the compiler are an `Except PyExn` result:
  `ValueError` carries its message, `IndexError` (possible only from
  `request.table[0]` on an empty table name) is a distinct constructor.
* The driver (`pyodbc`) is an environment value: each statement execution
  attempt is given a `DriverOutcome` (rows, a `pyodbc.Error` with a message,
  or any other exception).  Connection handles are numbered by a fresh-handle
  counter in `ConnState`; `closedHandles` records handles on which `.close()`
  was called.
* Wall-clock time (`time.time()`) is an explicit `Int` parameter.
-/

set_option maxHeartbeats 1000000

namespace GlassTrax

/-! ## Python string primitives -/

/-- Substring containment, Python `pat in s` on the underlying char lists. -/
def listContainsSub (pat : List Char) : List Char → Bool
  | [] => pat.isEmpty
  | c :: rest => pat.isPrefixOf (c :: rest) || listContainsSub pat rest

/-- `pat in s` for strings. -/
def strContainsSub (s pat : String) : Bool :=
  listContainsSub pat.data s.data

/-- Python `str.upper()` (ASCII). -/
def pyUpper (s : String) : String :=
  ⟨s.data.map Char.toUpper⟩

/-- Python `str.lower()` (ASCII). -/
def pyLower (s : String) : String :=
  ⟨s.data.map Char.toLower⟩

/-- Strip every char in `cs` from both ends, Python `str.strip(chars)`. -/
def listStripChars (cs : List Char) (l : List Char) : List Char :=
  ((l.dropWhile (fun c => cs.contains c)).reverse.dropWhile (fun c => cs.contains c)).reverse

/-- Python `str.strip(chars)`. -/
def pyStripChars (cs : List Char) (s : String) : String :=
  ⟨listStripChars cs s.data⟩

/-- ASCII whitespace, the fragment of Python `str.strip()` the data can hit. -/
def wsChars : List Char := [' ', '\t', '\n', '\r', '\x0b', '\x0c']

/-- Python `str.strip()` with no argument. -/
def pyStrip (s : String) : String :=
  pyStripChars wsChars s

/-- Python `sep.join(parts)`. -/
def pyJoin (sep : String) : List String → String
  | [] => ""
  | [x] => x
  | x :: y :: rest => x ++ sep ++ pyJoin sep (y :: rest)

/-- Python `s.replace(pat, rep, 1)` for a nonempty `pat`, on char lists. -/
def listReplaceFirst (pat rep : List Char) : List Char → List Char
  | [] => []
  | c :: rest =>
    if pat.isPrefixOf (c :: rest) then rep ++ (c :: rest).drop pat.length
    else c :: listReplaceFirst pat rep rest

/-- Python `s.replace(pat, rep, 1)` for a nonempty `pat`. -/
def replaceFirst (pat rep s : String) : String :=
  ⟨listReplaceFirst pat.data rep.data s.data⟩

/-- Option-of-Nat truthiness: Python `if x:` for `x : int | None`. -/
def optTruthy : Option Nat → Bool
  | none => false
  | some n => n != 0

/-- Option-of-String truthiness: Python `if x:` for `x : str | None`. -/
def optStrTruthy : Option String → Bool
  | none => false
  | some s => s != ""

/-! ## Data model (`src/agent/schemas.py`)

Filter values arrive as JSON, so a filter value is a Python value of
JSON shape; the compiler only ever inspects whether it is a list. -/

/-- A Python/JSON value as carried by `FilterCondition.value` and the
positional parameter list. -/
inductive PyVal where
  | pNone
  | pBool (b : Bool)
  | pInt (n : Int)
  | pStr (s : String)
  | pList (xs : List PyVal)
deriving Repr, BEq

/-- `FilterCondition` (pydantic): `operator` is restricted by the schema to
the eleven SQL operators; we carry it as a string as the code does. -/
structure FilterCondition where
  column : String
  operator : String
  value : PyVal := .pNone
deriving Repr, BEq

/-- `JoinClause` (pydantic). -/
structure JoinClause where
  table : String
  «alias» : Option String := none
  join_type : String := "LEFT"
  on_left : String
  on_right : String
deriving Repr, BEq

/-- `OrderBy` (pydantic). -/
structure OrderBy where
  column : String
  direction : String := "ASC"
deriving Repr, BEq

/-- `QueryRequest` (pydantic).  The schema constrains `limit` to `[1, 10000]`
and `offset` to `≥ 0`; those bounds appear as hypotheses where relevant. -/
structure QueryRequest where
  table : String
  «alias» : Option String := none
  columns : Option (List String) := none
  filters : List FilterCondition := []
  joins : List JoinClause := []
  order_by : List OrderBy := []
  limit : Option Nat := none
  offset : Option Nat := none
deriving Repr, BEq

/-- A value after `_convert_value`: what goes into a `QueryResponse` row.
Python floats produced by the numeric-string coercion are represented by the
literal that was passed to `float(...)` (IEEE arithmetic is out of scope;
no claim depends on the float value itself). -/
inductive JVal where
  | jNull
  | jBool (b : Bool)
  | jInt (n : Int)
  | jFloatLit (s : String)
  | jStr (s : String)
  | jOther (tag : String)
deriving Repr, DecidableEq

/-- `QueryResponse` (pydantic). -/
structure QueryResponse where
  success : Bool
  columns : List String := []
  rows : List (List JVal) := []
  row_count : Nat := 0
  error : Option String := none
deriving Repr, DecidableEq

/-- A raw value as returned by the ODBC driver, before `_convert_value`.
Bytes are a list of byte values (`0 ≤ b < 256`). `dbOther` stands for the
driver types the converter passes through unchanged (float/bool/date/...). -/
inductive DbVal where
  | dbNull
  | dbBytes (bs : List Nat)
  | dbStr (s : String)
  | dbInt (n : Int)
  | dbOther (tag : String)
deriving Repr, DecidableEq

/-- A Python exception escaping the query builder: `ValueError msg`, or the
`IndexError` that `request.table[0]` raises on an empty table name. -/
inductive PyExn where
  | valueError (msg : String)
  | indexError
deriving Repr, DecidableEq

/-! ## Identifier & Table Guard (`QueryService._validate_identifier`,
`QueryService._validate_table`) -/

/-- The quote characters stripped from both ends: `name.strip('"\x27`[]')`. -/
def quoteChars : List Char := ['"', '\'', '`', '[', ']']

/-- The injection blocklist checked against the uppercased name. -/
def dangerousPatterns : List String :=
  [";", "--", "/*", "*/", "DROP ", "DELETE ", "INSERT ", "UPDATE ", "TRUNCATE "]

/-- `QueryService._validate_identifier(name, allow_expressions)`. -/
def validate_identifier (name : String) (allowExpressions : Bool) :
    Except PyExn String :=
  let name := pyStripChars quoteChars name
  let upper := pyUpper name
  if dangerousPatterns.any (fun p => listContainsSub p.data upper.data) then
    .error (.valueError ("Invalid identifier: " ++ name))
  else if allowExpressions then
    .ok name
  else if name.data.all (fun c => c.isAlphanum || c = '_' || c = '.') then
    .ok name
  else
    .error (.valueError ("Invalid identifier: " ++ name))

/-- `QueryService._validate_table(table)`: case-insensitive allowlist check.
The Python message quotes the table name and renders the allowlist with
`repr`; the punctuation is simplified here, the content is the same. -/
def validate_table (allowed : List String) (table : String) : Except PyExn Unit :=
  if (allowed.map pyLower).contains (pyLower table) then
    .ok ()
  else
    .error (.valueError ("Table " ++ table ++ " is not in agent allowed_tables. " ++
      "Add " ++ table ++ " to agent_config.yaml and restart the agent. " ++
      "Current allowed tables: " ++ pyJoin ", " allowed))

/-! ## SQL Compiler (`QueryService._build_*`) -/

/-- `request.table[0]` — raises `IndexError` on an empty table name. -/
def tableHead (req : QueryRequest) : Except PyExn String :=
  match req.table.data with
  | [] => .error .indexError
  | c :: _ => .ok (String.singleton c)

/-- `QueryService._build_select`.  Note the source checks `if request.columns:`
(so an empty column list takes the `{alias}.*` branch) and the default alias is
`request.alias or request.table[0]` — the alias is *not* validated here. -/
def build_select (req : QueryRequest) : Except PyExn String :=
  match req.columns with
  | some (c :: cs) => do
    let cols ← (c :: cs).mapM (fun x => validate_identifier x true)
    .ok ("SELECT " ++ pyJoin ", " cols)
  | _ => do
    let aliasStr ←
      match req.«alias» with
      | some a => if a ≠ "" then .ok a else tableHead req
      | none => tableHead req
    .ok ("SELECT " ++ aliasStr ++ ".*")

/-- `QueryService._build_from`. -/
def build_from (allowed : List String) (req : QueryRequest) : Except PyExn String := do
  let table ← validate_identifier req.table false
  let _ ← validate_table allowed table
  match req.«alias» with
  | some a =>
    if a ≠ "" then do
      let al ← validate_identifier a false
      .ok ("FROM " ++ table ++ " " ++ al)
    else .ok ("FROM " ++ table)
  | none => .ok ("FROM " ++ table)

/-- One join clause of `QueryService._build_joins`. -/
def build_join1 (allowed : List String) (j : JoinClause) : Except PyExn String := do
  let table ← validate_identifier j.table false
  let _ ← validate_table allowed table
  let aliasStr ←
    match j.«alias» with
    | some a => if a ≠ "" then validate_identifier a false else .ok ""
    | none => .ok ""
  let onl ← validate_identifier j.on_left false
  let onr ← validate_identifier j.on_right false
  let s := j.join_type ++ " JOIN " ++ table
  let s := if aliasStr ≠ "" then s ++ " " ++ aliasStr else s
  .ok (s ++ " ON " ++ onl ++ " = " ++ onr)

/-- `QueryService._build_joins`: join parameters are always `[]` by design. -/
def build_joins (allowed : List String) (req : QueryRequest) :
    Except PyExn (String × List PyVal) :=
  match req.joins with
  | [] => .ok ("", [])
  | js => do
    let parts ← js.mapM (build_join1 allowed)
    .ok (pyJoin " " parts, [])

/-- One filter of the loop body of `QueryService._build_where`: the emitted
condition string and the parameters this filter appends. -/
def whereFilter (f : FilterCondition) : Except PyExn (String × List PyVal) := do
  let col ← validate_identifier f.column false
  if f.operator = "IS NULL" ∨ f.operator = "IS NOT NULL" then
    .ok (col ++ " " ++ f.operator, [])
  else if f.operator = "IN" then
    match f.value with
    | .pList xs =>
      .ok (col ++ " IN (" ++ pyJoin ", " (xs.map fun _ => "?") ++ ")", xs)
    | _ => .error (.valueError "IN operator requires a list value")
  else if f.operator = "NOT IN" then
    match f.value with
    | .pList xs =>
      .ok (col ++ " NOT IN (" ++ pyJoin ", " (xs.map fun _ => "?") ++ ")", xs)
    | _ => .error (.valueError "NOT IN operator requires a list value")
  else
    .ok (col ++ " " ++ f.operator ++ " ?", [f.value])

/-- The accumulation loop of `_build_where`: conditions in order, parameters
extended per filter in order. -/
def whereGo : List FilterCondition → Except PyExn (List String × List PyVal)
  | [] => .ok ([], [])
  | f :: rest => do
    let (c, ps) ← whereFilter f
    let (cs, ps2) ← whereGo rest
    .ok (c :: cs, ps ++ ps2)

/-- `QueryService._build_where`. -/
def build_where (req : QueryRequest) : Except PyExn (String × List PyVal) :=
  match req.filters with
  | [] => .ok ("", [])
  | fs => do
    let (cs, ps) ← whereGo fs
    .ok ("WHERE " ++ pyJoin " AND " cs, ps)

/-- `QueryService._build_order_by`. -/
def build_order_by (req : QueryRequest) : Except PyExn String :=
  match req.order_by with
  | [] => .ok ""
  | os => do
    let parts ← os.mapM (fun o => do
      let col ← validate_identifier o.column false
      (pure (col ++ " " ++ o.direction) : Except PyExn String))
    .ok ("ORDER BY " ++ pyJoin ", " parts)

/-- `QueryService._build_query`: compose the fragments; when `request.limit`
is truthy, rewrite the first `SELECT` to `SELECT TOP {limit + (offset or 0)}`. -/
def build_query (allowed : List String) (req : QueryRequest) :
    Except PyExn (String × List PyVal) := do
  let select ← build_select req
  let fromClause ← build_from allowed req
  let (joins, joinParams) ← build_joins allowed req
  let (whereClause, whereParams) ← build_where req
  let orderBy ← build_order_by req
  let select :=
    if optTruthy req.limit then
      replaceFirst "SELECT"
        ("SELECT TOP " ++ toString (req.limit.getD 0 + req.offset.getD 0)) select
    else select
  let parts := [select, fromClause]
    ++ (if joins ≠ "" then [joins] else [])
    ++ (if whereClause ≠ "" then [whereClause] else [])
    ++ (if orderBy ≠ "" then [orderBy] else [])
  .ok (pyJoin " " parts, joinParams ++ whereParams)

/-- The select clause after the pagination rewrite, and the tail parts. -/
def assembledSql (req : QueryRequest) (sel joins whereClause orderBy : String)
    (fromClause : String) : String :=
  pyJoin " "
    ([(if optTruthy req.limit then
        replaceFirst "SELECT"
          ("SELECT TOP " ++ toString (req.limit.getD 0 + req.offset.getD 0)) sel
      else sel), fromClause]
    ++ (if joins ≠ "" then [joins] else [])
    ++ (if whereClause ≠ "" then [whereClause] else [])
    ++ (if orderBy ≠ "" then [orderBy] else []))

/-! ## Value Converter (`QueryService._convert_value`) -/

/-- Strict UTF-8 validation/decoding as a byte-at-a-time automaton:
`need` continuation bytes still expected, `cp` the accumulated code point,
`[lo, hi]` the admissible range of the next continuation byte.  The ranges
reproduce CPython's strict decoder: overlong encodings, surrogates and code
points above `U+10FFFF` are rejected. -/
def utf8Aux : List Nat → Nat → Nat → Nat → Nat → List Char → Option (List Char)
  | [], need, _, _, _, out => if need = 0 then some out.reverse else none
  | b :: rest, need, cp, lo, hi, out =>
    if need ≠ 0 then
      if lo ≤ b ∧ b ≤ hi then
        let cp2 := cp * 64 + (b - 128)
        if need = 1 then utf8Aux rest 0 0 0 0 (Char.ofNat cp2 :: out)
        else utf8Aux rest (need - 1) cp2 128 191 out
      else none
    else
      if b < 128 then utf8Aux rest 0 0 0 0 (Char.ofNat b :: out)
      else if 194 ≤ b ∧ b ≤ 223 then utf8Aux rest 1 (b - 192) 128 191 out
      else if b = 224 then utf8Aux rest 2 0 160 191 out
      else if 225 ≤ b ∧ b ≤ 236 then utf8Aux rest 2 (b - 224) 128 191 out
      else if b = 237 then utf8Aux rest 2 13 128 159 out
      else if 238 ≤ b ∧ b ≤ 239 then utf8Aux rest 2 (b - 224) 128 191 out
      else if b = 240 then utf8Aux rest 3 0 144 191 out
      else if 241 ≤ b ∧ b ≤ 243 then utf8Aux rest 3 (b - 240) 128 191 out
      else if b = 244 then utf8Aux rest 3 4 128 143 out
      else none

/-- Python `bytes.decode("utf-8")`: `some` chars or `none` (UnicodeDecodeError). -/
def utf8Decode? (bs : List Nat) : Option (List Char) :=
  utf8Aux bs 0 0 0 0 []

/-- Lowercase hex digit. -/
def hexDigitChar (n : Nat) : Char :=
  if n < 10 then Char.ofNat (48 + n) else Char.ofNat (87 + n)

/-- Python `bytes.hex()`: lowercase, two digits per byte. -/
def bytesHex (bs : List Nat) : String :=
  ⟨(bs.map (fun b => [hexDigitChar (b / 16), hexDigitChar (b % 16)])).flatten⟩

/-- Python `str.isdigit()` on the ASCII fragment: nonempty, all digits. -/
def pyIsDigitList (l : List Char) : Bool :=
  !l.isEmpty && l.all (·.isDigit)

/-- Digits to the number they denote. -/
def digitsToNat (l : List Char) : Nat :=
  l.foldl (fun acc c => acc * 10 + (c.toNat - 48)) 0

/-- The guard `stripped.lstrip("-").isdigit()` (lstrip removes every
leading dash). -/
def intGuard (s : String) : Bool :=
  pyIsDigitList (s.data.dropWhile (· = '-'))

/-- Whether `int(stripped)` succeeds for a string that passed `intGuard`:
at most one leading dash, then digits. -/
def pyIntOk (s : String) : Bool :=
  match s.data with
  | '-' :: rest => pyIsDigitList rest
  | l => pyIsDigitList l

/-- The value of `int(stripped)` when `pyIntOk`. -/
def pyIntVal (s : String) : Int :=
  match s.data with
  | '-' :: rest => -(digitsToNat rest : Int)
  | l => (digitsToNat l : Int)

/-- Python `s.replace(c, "", 1)` on char lists. -/
def removeFirstChar (c : Char) : List Char → List Char
  | [] => []
  | x :: xs => if x = c then xs else x :: removeFirstChar c xs

/-- The guard `stripped.replace(".", "", 1).replace("-", "", 1).isdigit()`. -/
def floatGuard (s : String) : Bool :=
  pyIsDigitList (removeFirstChar '-' (removeFirstChar '.' s.data))

/-- Unsigned part of the Python `float()` literal grammar restricted to what
can pass `floatGuard`: `digits`, `digits "." digits?` or `"." digits`. -/
def floatBody (l : List Char) : Bool :=
  let ip := l.takeWhile (·.isDigit)
  let rest := l.dropWhile (·.isDigit)
  match rest with
  | [] => !ip.isEmpty
  | '.' :: frac => frac.all (·.isDigit) && (!ip.isEmpty || !frac.isEmpty)
  | _ => false

/-- Whether `float(stripped)` succeeds for a string that passed `floatGuard`. -/
def pyFloatOk (s : String) : Bool :=
  match s.data with
  | '-' :: rest => floatBody rest
  | l => floatBody l

/-- `QueryService._convert_value`. -/
def convert_value : DbVal → JVal
  | .dbNull => .jNull
  | .dbBytes bs =>
    match utf8Decode? bs with
    | some cs => .jStr (pyStrip ⟨cs⟩)
    | none => .jStr (bytesHex bs)
  | .dbStr s =>
    let stripped := pyStrip s
    if stripped ≠ "" then
      if intGuard stripped && pyIntOk stripped then .jInt (pyIntVal stripped)
      else if floatGuard stripped && pyFloatOk stripped then .jFloatLit stripped
      else .jStr stripped
    else .jStr stripped
  | .dbInt n => .jInt n
  | .dbOther t => .jOther t

/-! ## Connection Manager (`QueryService._get_connection`, `close`) -/

def MAX_CONNECTION_AGE : Int := 300

def MAX_CONSECUTIVE_ERRORS : Nat := 3

/-- The connection slot of a `QueryService` instance: the live handle (if any),
its creation timestamp, the consecutive-error counter, plus bookkeeping that
makes handle identity observable: a fresh-handle counter (`pyodbc.connect`
always returns a new object) and the log of handles `.close()` was called on. -/
structure ConnState where
  conn : Option Nat
  createdAt : Int
  consecutiveErrors : Nat
  nextHandle : Nat
  closedHandles : List Nat
deriving Repr, DecidableEq

/-- `QueryService.close`: close and drop the handle, zero the timestamp.
(The consecutive-error counter is *not* touched by `close`.) -/
def closeConn (s : ConnState) : ConnState :=
  match s.conn with
  | some h =>
    { s with conn := none, createdAt := 0, closedHandles := s.closedHandles ++ [h] }
  | none => s

/-- `QueryService._get_connection(force_new)`: recycle a live connection that
is too old or has accumulated too many consecutive errors, then open a fresh
one if the slot is empty. -/
def get_connection (now : Int) (forceNew : Bool) (s : ConnState) : Nat × ConnState :=
  let shouldRecycle :=
    match s.conn with
    | some _ =>
      decide (MAX_CONNECTION_AGE < now - s.createdAt)
        || decide (MAX_CONSECUTIVE_ERRORS ≤ s.consecutiveErrors)
    | none => false
  let s1 := if forceNew || shouldRecycle then closeConn s else s
  match s1.conn with
  | some h => (h, s1)
  | none =>
    (s1.nextHandle,
      { conn := some s1.nextHandle, createdAt := now, consecutiveErrors := 0,
        nextHandle := s1.nextHandle + 1, closedHandles := s1.closedHandles })

/-! ## Query Executor (`QueryService.execute`) -/

/-- What the driver does for one execution attempt (acquire + execute + fetch):
columns and rows, a `pyodbc.Error` whose most specific message is `msg`, or
any other exception rendered as `msg`. -/
inductive DriverOutcome where
  | ok (cols : List String) (rows : List (List DbVal))
  | driverErr (msg : String)
  | otherErr (msg : String)
deriving Repr

/-- `QueryService._is_connection_error`. -/
def connectionKeywords : List String :=
  ["connection", "communication link", "network", "timeout", "closed",
   "disconnected", "broken pipe"]

def is_connection_error (msg : String) : Bool :=
  connectionKeywords.any (fun kw => listContainsSub kw.data (pyLower msg).data)

/-- The `for i, row in enumerate(rows): if i < offset: continue` loop —
keep the rows whose raw-fetch index is at least `offset`. -/
def skipOffset (offset : Nat) (rows : List (List DbVal)) : List (List DbVal) :=
  (rows.enum.filter (fun p => !(p.1 < offset))).map (fun p => p.2)

inductive AttemptResult where
  | success (resp : QueryResponse)
  | dbFail (msg : String)
  | unexpectedFail (msg : String)
deriving Repr

/-- One pass through the `try` body of `execute` after the query was built:
acquire a connection, run the statement (outcome given by the environment),
then either assemble the success response (resetting the error counter) or
apply the `except Exception` bookkeeping: `consecutive_errors += 1` always,
and additionally `self._conn = None` when the exception is a `pyodbc.Error`. -/
def runAttempt (req : QueryRequest) (now : Int) (outcome : DriverOutcome)
    (s : ConnState) : AttemptResult × ConnState :=
  let s1 := (get_connection now false s).2
  match outcome with
  | .ok cols rows =>
    let offset := req.offset.getD 0
    let resultRows := (skipOffset offset rows).map (fun row => row.map convert_value)
    (.success ⟨true, cols, resultRows, resultRows.length, none⟩,
      { s1 with consecutiveErrors := 0 })
  | .driverErr msg =>
    (.dbFail msg, { s1 with consecutiveErrors := s1.consecutiveErrors + 1, conn := none })
  | .otherErr msg =>
    (.unexpectedFail msg, { s1 with consecutiveErrors := s1.consecutiveErrors + 1 })

/-- Message of the `IndexError` from `request.table[0]`. -/
def indexErrorMsg : String := "string index out of range"

/-- `QueryService.execute(request, _retry)`: build, attempt, classify, retry on a
connection-classified driver error while budget remains.  The boolean `_retry`
of the source is the budget `retryRemaining` (`True` is 1, `False` is 0); the
public entry point always passes 1.  Each attempt consumes the head of
`outcomes`.  The third component of the result counts how many times the
compiled statement was handed to the driver. -/
def execute (allowed : List String) (req : QueryRequest) (retryRemaining : Nat)
    (now : Int) (outcomes : List DriverOutcome) (s : ConnState) :
    QueryResponse × ConnState × Nat :=
  match build_query allowed req with
  | .error (.valueError m) => (⟨false, [], [], 0, some m⟩, s, 0)
  | .error .indexError =>
    (⟨false, [], [], 0, some ("Unexpected error: " ++ indexErrorMsg)⟩,
      { s with consecutiveErrors := s.consecutiveErrors + 1 }, 0)
  | .ok _ =>
    match runAttempt req now (outcomes.headD (.ok [] [])) s with
    | (.success resp, s1) => (resp, s1, 1)
    | (.unexpectedFail msg, s1) =>
      (⟨false, [], [], 0, some ("Unexpected error: " ++ msg)⟩, s1, 1)
    | (.dbFail msg, s1) =>
      match retryRemaining with
      | n + 1 =>
        if is_connection_error msg then
          let r := execute allowed req n now outcomes.tail s1
          (r.1, r.2.1, r.2.2 + 1)
        else (⟨false, [], [], 0, some ("Database error: " ++ msg)⟩, s1, 1)
      | 0 => (⟨false, [], [], 0, some ("Database error: " ++ msg)⟩, s1, 1)

/-! ## Client Mirror (`src/api/services/agent_client.py`, `AgentClient.query`) -/

/-- Transport-level outcome of the `POST /query` call: a network failure
(`httpx.ConnectError`), a timeout (`httpx.TimeoutException`), or an HTTP
response with a status and a body that either decodes into a `QueryResponse`
or does not. -/
inductive HttpOutcome where
  | netFail (msg : String)
  | timedOut
  | httpResp (status : Nat) (body : Option QueryResponse)
deriving Repr

/-- The three error kinds of the client mirror. -/
inductive AgentError where
  | connError (msg : String)
  | authError (msg : String)
  | queryError (msg : String)
deriving Repr, DecidableEq

/-- `AgentClient.query`: classify the transport outcome.  `raise_for_status`
in httpx raises for every non-2xx status; a body that fails to decode lands in
the final generic handler, which wraps it as a connection error. -/
def clientQuery (url : String) (timeoutS : Nat) (out : HttpOutcome) :
    Except AgentError QueryResponse :=
  match out with
  | .netFail m =>
    .error (.connError ("Cannot connect to agent at " ++ url ++ ": " ++ m))
  | .timedOut =>
    .error (.connError ("Agent request timed out after " ++ toString timeoutS ++ "s"))
  | .httpResp status body =>
    if status = 401 then
      .error (.authError "Agent authentication failed - check API key")
    else if !(200 ≤ status ∧ status < 300) then
      .error (.connError ("Agent returned error: " ++ toString status))
    else
      match body with
      | none => .error (.connError "Unexpected error: invalid response body")
      | some r =>
        if !r.success && optStrTruthy r.error then
          .error (.queryError (r.error.getD ""))
        else .ok r

/-! ## Helper lemmas -/

/-- The enumerate-and-skip loop of `execute` is `List.drop`. -/
lemma enumFrom_filter_map_drop {α : Type} (o : Nat) :
    ∀ (l : List α) (n : Nat),
      ((List.enumFrom n l).filter (fun p => !(p.1 < o))).map (fun p => p.2) =
        l.drop (o - n) := by
  intro l
  induction l with
  | nil => intro n; simp
  | cons a t ih =>
    intro n
    rw [List.enumFrom_cons, List.filter_cons]
    by_cases hlt : n < o
    · rw [if_neg (by simp [hlt])]
      rw [ih (n + 1)]
      have ho : o - n = (o - (n + 1)) + 1 := by omega
      rw [ho, List.drop_succ_cons]
    · rw [if_pos (by simp [hlt])]
      rw [List.map_cons, ih (n + 1)]
      have ho : o - n = 0 := by omega
      have ho2 : o - (n + 1) = 0 := by omega
      rw [ho, ho2]
      simp

lemma skipOffset_eq_drop (o : Nat) (rows : List (List DbVal)) :
    skipOffset o rows = rows.drop o := by
  unfold skipOffset
  have := enumFrom_filter_map_drop o rows 0
  simpa using this

/-- Python single-occurrence replace, when the pattern sits at the front. -/
lemma listReplaceFirst_of_isPrefixOf (pat rep l : List Char)
    (hne : pat ≠ []) (h : pat.isPrefixOf l = true) :
    listReplaceFirst pat rep l = rep ++ l.drop pat.length := by
  cases l with
  | nil =>
    exfalso
    cases pat with
    | nil => exact hne rfl
    | cons c cs => simp [List.isPrefixOf] at h
  | cons c rest => simp [listReplaceFirst, h]

lemma pyJoin_cons2 (sep x y : String) (rest : List String) :
    pyJoin sep (x :: y :: rest) = x ++ sep ++ pyJoin sep (y :: rest) := rfl

/-- `_build_select` always emits a clause starting with the `SELECT ` keyword. -/
lemma build_select_starts (req : QueryRequest) (sel : String)
    (h : build_select req = .ok sel) :
    ∃ t, sel.data = "SELECT ".data ++ t := by
  unfold build_select at h
  rcases hc : req.columns with _ | ⟨_ | ⟨c, cs⟩⟩ <;>
      simp only [hc, bind, Except.bind] at h
  case some.cons =>
    rcases hm : (c :: cs).mapM (fun x => validate_identifier x true) with e | vs <;>
        simp only [hm] at h
    · cases h
    · injection h with h2
      exact ⟨(pyJoin ", " vs).data, by rw [← h2]; simp [String.data_append]⟩
  all_goals {
    rcases ha : req.«alias» with _ | a <;> simp only [ha] at h
    case none =>
      rcases ht : tableHead req with e | v <;> simp only [ht] at h
      · cases h
      · injection h with h2
        exact ⟨v.data ++ ".*".data, by
          rw [← h2]; simp [String.data_append, List.append_assoc]⟩
    case some =>
      by_cases hae : a ≠ ""
      · rw [if_pos hae] at h
        injection h with h2
        exact ⟨a.data ++ ".*".data, by
          rw [← h2]; simp [String.data_append, List.append_assoc]⟩
      · rw [if_neg hae] at h
        rcases ht : tableHead req with e | v <;> simp only [ht] at h
        · cases h
        · injection h with h2
          exact ⟨v.data ++ ".*".data, by
            rw [← h2]; simp [String.data_append, List.append_assoc]⟩ }

/-- Substring containment is existence of a decomposition. -/
lemma listContainsSub_iff (pat l : List Char) :
    listContainsSub pat l = true ↔ ∃ u v, l = u ++ pat ++ v := by
  induction l with
  | nil =>
    simp only [listContainsSub, List.isEmpty_iff]
    constructor
    · intro h; exact ⟨[], [], by simp [h]⟩
    · rintro ⟨u, v, h⟩
      rcases List.append_eq_nil.mp (List.append_eq_nil.mp h.symm).1 with ⟨_, h2⟩
      exact h2
  | cons c rest ih =>
    simp only [listContainsSub, Bool.or_eq_true]
    constructor
    · rintro (h | h)
      · rcases List.isPrefixOf_iff_prefix.mp h with ⟨t, ht⟩
        exact ⟨[], t, by simp [← ht]⟩
      · rcases ih.mp h with ⟨u, v, huv⟩
        exact ⟨c :: u, v, by simp [huv]⟩
    · rintro ⟨u, v, huv⟩
      cases u with
      | nil =>
        left
        exact List.isPrefixOf_iff_prefix.mpr ⟨v, by simpa using huv.symm⟩
      | cons a u =>
        right
        rw [List.cons_append, List.cons_append] at huv
        injection huv with h1 h2
        exact ih.mpr ⟨u, v, h2⟩

/-- `dropWhile` cannot eat an occurrence made of characters the predicate
rejects. -/
lemma dropWhile_keeps_occurrence (q : Char → Bool) (p : List Char)
    (hne : p ≠ []) (hq : ∀ c ∈ p, q c = false) :
    ∀ u v : List Char, ∃ w, List.dropWhile q (u ++ p ++ v) = w ++ p ++ v := by
  intro u
  induction u with
  | nil =>
    intro v
    cases p with
    | nil => exact absurd rfl hne
    | cons c cs =>
      refine ⟨[], ?_⟩
      have : q c = false := hq c (by simp)
      simp [List.dropWhile_cons, this]
  | cons a u ih =>
    intro v
    rw [List.cons_append, List.cons_append, List.dropWhile_cons]
    by_cases ha : q a = true
    · simpa [ha] using ih v
    · refine ⟨a :: u, ?_⟩
      simp only [Bool.not_eq_true] at ha
      simp [ha]

/-- Stripping quote characters from the ends preserves an occurrence of a
pattern that contains no quote character. -/
lemma listStripChars_keeps (cs p l : List Char)
    (hne : p ≠ []) (hc : ∀ c ∈ p, cs.contains c = false) :
    listContainsSub p l = true → listContainsSub p (listStripChars cs l) = true := by
  intro h
  rcases (listContainsSub_iff p l).mp h with ⟨u, v, rfl⟩
  unfold listStripChars
  rcases dropWhile_keeps_occurrence (fun c => cs.contains c) p hne hc u v with ⟨u1, h1⟩
  rw [h1]
  have hrev : (u1 ++ p ++ v).reverse = v.reverse ++ p.reverse ++ u1.reverse := by
    simp [List.reverse_append, List.append_assoc]
  rw [hrev]
  have hne2 : p.reverse ≠ [] := by
    intro hx; exact hne (by simpa using congrArg List.reverse hx)
  have hc2 : ∀ c ∈ p.reverse, cs.contains c = false := by
    intro c hcin; exact hc c (List.mem_reverse.mp hcin)
  rcases dropWhile_keeps_occurrence (fun c => cs.contains c) p.reverse hne2 hc2
      v.reverse u1.reverse with ⟨w, h2⟩
  rw [h2]
  refine (listContainsSub_iff p _).mpr ⟨u1, w.reverse, ?_⟩
  simp [List.reverse_append, List.append_assoc]

/-- `map` preserves occurrences. -/
lemma listContainsSub_map (f : Char → Char) (p l : List Char) :
    listContainsSub p l = true → listContainsSub (p.map f) (l.map f) = true := by
  intro h
  rcases (listContainsSub_iff p l).mp h with ⟨u, v, rfl⟩
  exact (listContainsSub_iff _ _).mpr ⟨u.map f, v.map f, by simp⟩

/-- `map` preserves occurrences of a pattern the function fixes pointwise. -/
lemma listContainsSub_map_fix (f : Char → Char) (p l : List Char)
    (hf : p.map f = p) :
    listContainsSub p l = true → listContainsSub p (l.map f) = true := by
  intro h
  have := listContainsSub_map f p l h
  rwa [hf] at this

/-- Inversion of `_build_query`: a successful compilation means every fragment
builder succeeded and the result is their assembly. -/
lemma build_query_inv (allowed : List String) (req : QueryRequest)
    (sql : String) (params : List PyVal)
    (h : build_query allowed req = .ok (sql, params)) :
    ∃ sel fromClause jp wp ob,
      build_select req = .ok sel ∧
      build_from allowed req = .ok fromClause ∧
      build_joins allowed req = .ok jp ∧
      build_where req = .ok wp ∧
      build_order_by req = .ok ob ∧
      sql = assembledSql req sel jp.1 wp.1 ob fromClause ∧
      params = jp.2 ++ wp.2 := by
  unfold build_query at h
  simp only [bind, Except.bind] at h
  rcases h1 : build_select req with e | sel <;> rw [h1] at h
  · cases h
  rcases h2 : build_from allowed req with e | fromClause <;> rw [h2] at h
  · cases h
  rcases h3 : build_joins allowed req with e | jp <;> rw [h3] at h
  · cases h
  rcases h4 : build_where req with e | wp <;> rw [h4] at h
  · cases h
  rcases h5 : build_order_by req with e | ob <;> rw [h5] at h
  · cases h
  refine ⟨sel, fromClause, jp, wp, ob, rfl, rfl, rfl, rfl, rfl, ?_⟩
  rcases jp with ⟨joins, joinParams⟩
  rcases wp with ⟨whereClause, whereParams⟩
  simp only at h
  injection h with h6
  injection h6 with hsql hparams
  exact ⟨hsql.symm, hparams.symm⟩

/-- A build-time `ValueError` short-circuits `execute` before the connection
is touched: no attempt, no state change. -/
lemma execute_validation_error (allowed : List String) (req : QueryRequest)
    (retryRemaining : Nat) (now : Int) (outcomes : List DriverOutcome) (s : ConnState)
    (m : String) (h : build_query allowed req = .error (.valueError m)) :
    execute allowed req retryRemaining now outcomes s = (⟨false, [], [], 0, some m⟩, s, 0) := by
  rw [execute]
  rw [h]

/-- `execute` on a successful driver outcome. -/
lemma execute_success (allowed : List String) (req : QueryRequest)
    (retryRemaining : Nat)
    (now : Int) (cols : List String) (rows : List (List DbVal))
    (rest : List DriverOutcome) (s : ConnState) (sp : String × List PyVal)
    (h : build_query allowed req = .ok sp) :
    execute allowed req retryRemaining now (.ok cols rows :: rest) s =
      (⟨true, cols,
          (rows.drop (req.offset.getD 0)).map (fun row => row.map convert_value),
          ((rows.drop (req.offset.getD 0)).map (fun row => row.map convert_value)).length,
          none⟩,
        { (get_connection now false s).2 with consecutiveErrors := 0 }, 1) := by
  rw [execute]
  rw [h]
  simp only [List.headD_cons, runAttempt, skipOffset_eq_drop]

/-- `execute` on an unexpected (non-driver) exception: no retry, counter
incremented, connection handle not dropped. -/
lemma execute_unexpected (allowed : List String) (req : QueryRequest)
    (retryRemaining : Nat)
    (now : Int) (m : String) (rest : List DriverOutcome) (s : ConnState)
    (sp : String × List PyVal) (h : build_query allowed req = .ok sp) :
    execute allowed req retryRemaining now (.otherErr m :: rest) s =
      (⟨false, [], [], 0, some ("Unexpected error: " ++ m)⟩,
        { (get_connection now false s).2 with
            consecutiveErrors := (get_connection now false s).2.consecutiveErrors + 1 },
        1) := by
  rw [execute]
  rw [h]
  simp only [List.headD_cons, runAttempt]

/-- `execute` with the retry budget exhausted, on a driver error: returned as
a database-error response, never retried. -/
lemma execute_noretry_driver (allowed : List String) (req : QueryRequest)
    (now : Int) (m : String) (rest : List DriverOutcome) (s : ConnState)
    (sp : String × List PyVal) (h : build_query allowed req = .ok sp) :
    execute allowed req 0 now (.driverErr m :: rest) s =
      (⟨false, [], [], 0, some ("Database error: " ++ m)⟩,
        { (get_connection now false s).2 with
            consecutiveErrors := (get_connection now false s).2.consecutiveErrors + 1,
            conn := none },
        1) := by
  rw [execute]
  rw [h]
  simp only [List.headD_cons, runAttempt]

/-- With the retry budget available, a connection-classified driver error
triggers exactly one recursive attempt. -/
lemma execute_retry_driver (allowed : List String) (req : QueryRequest) (n : Nat)
    (now : Int) (m : String) (rest : List DriverOutcome) (s : ConnState)
    (sp : String × List PyVal) (h : build_query allowed req = .ok sp)
    (hm : is_connection_error m = true) :
    execute allowed req (n + 1) now (.driverErr m :: rest) s =
      (let s1 := { (get_connection now false s).2 with
          consecutiveErrors := (get_connection now false s).2.consecutiveErrors + 1,
          conn := none }
       let r := execute allowed req n now rest s1
       (r.1, r.2.1, r.2.2 + 1)) := by
  rw [execute]
  rw [h]
  simp only [List.headD_cons, runAttempt, hm, List.tail_cons]
  simp

/-- With the retry budget exhausted, the number of driver attempts of
`execute` is one whenever compilation succeeded. -/
lemma execute_false_attempts (allowed : List String) (req : QueryRequest)
    (now : Int) (outcomes : List DriverOutcome) (s : ConnState)
    (sp : String × List PyVal) (h : build_query allowed req = .ok sp) :
    (execute allowed req 0 now outcomes s).2.2 = 1 := by
  rw [execute]
  rw [h]
  rcases outcomes.headD (.ok [] []) with ⟨cols, rows⟩ | m | m <;>
    simp [runAttempt]

/-- A build-time `IndexError` (empty table name, no alias, no columns) lands
in the generic handler: counted, no attempt. -/
lemma execute_index_error (allowed : List String) (req : QueryRequest)
    (retryRemaining : Nat) (now : Int) (outcomes : List DriverOutcome)
    (s : ConnState) (h : build_query allowed req = .error .indexError) :
    execute allowed req retryRemaining now outcomes s =
      (⟨false, [], [], 0, some ("Unexpected error: " ++ indexErrorMsg)⟩,
        { s with consecutiveErrors := s.consecutiveErrors + 1 }, 0) := by
  rw [execute]
  rw [h]

/-- One unfolding of `execute` when compilation succeeded. -/
lemma execute_one_unfold (allowed : List String) (req : QueryRequest) (k : Nat)
    (now : Int) (outcomes : List DriverOutcome) (s : ConnState)
    (sp : String × List PyVal) (h : build_query allowed req = .ok sp) :
    execute allowed req k now outcomes s =
      (match runAttempt req now (outcomes.headD (.ok [] [])) s with
      | (.success resp, s1) => (resp, s1, 1)
      | (.unexpectedFail msg, s1) =>
        (⟨false, [], [], 0, some ("Unexpected error: " ++ msg)⟩, s1, 1)
      | (.dbFail msg, s1) =>
        match k with
        | n + 1 =>
          if is_connection_error msg then
            let r := execute allowed req n now outcomes.tail s1
            (r.1, r.2.1, r.2.2 + 1)
          else (⟨false, [], [], 0, some ("Database error: " ++ msg)⟩, s1, 1)
        | 0 => (⟨false, [], [], 0, some ("Database error: " ++ msg)⟩, s1, 1)) := by
  rw [execute]
  rw [h]

/-- `execute` with no scripted outcome: the attempt succeeds on the default
empty result set. -/
lemma execute_nil (allowed : List String) (req : QueryRequest) (k : Nat)
    (now : Int) (s : ConnState) (sp : String × List PyVal)
    (h : build_query allowed req = .ok sp) :
    execute allowed req k now [] s =
      (⟨true, [], [], 0, none⟩,
        { (get_connection now false s).2 with consecutiveErrors := 0 }, 1) := by
  rw [execute]
  rw [h]
  simp [runAttempt, skipOffset]

/-- A driver error that is not connection-classified is never retried, even
with budget remaining. -/
lemma execute_driver_notconn (allowed : List String) (req : QueryRequest)
    (n : Nat) (now : Int) (m : String) (rest : List DriverOutcome)
    (s : ConnState) (sp : String × List PyVal)
    (h : build_query allowed req = .ok sp)
    (hm : is_connection_error m = false) :
    execute allowed req (n + 1) now (.driverErr m :: rest) s =
      (⟨false, [], [], 0, some ("Database error: " ++ m)⟩,
        { (get_connection now false s).2 with
            consecutiveErrors := (get_connection now false s).2.consecutiveErrors + 1,
            conn := none },
        1) := by
  rw [execute]
  rw [h]
  simp only [List.headD_cons, runAttempt, hm]
  simp

/-- A live connection that is neither too old nor too error-ridden is
returned as-is. -/
lemma get_connection_live (now : Int) (s : ConnState) (h : Nat)
    (hc : s.conn = some h)
    (hage : ¬(MAX_CONNECTION_AGE < now - s.createdAt))
    (herr : s.consecutiveErrors < MAX_CONSECUTIVE_ERRORS) :
    get_connection now false s = (h, s) := by
  simp [get_connection, hc, hage, Nat.not_le.mpr herr]

/-- In strict mode, a validated identifier consists solely of alphanumerics,
underscores and dots. -/
lemma validate_strict_chars (name colv : String)
    (h : validate_identifier name false = .ok colv) :
    colv.data.all (fun c => c.isAlphanum || c = '_' || c = '.') = true := by
  simp only [validate_identifier] at h
  by_cases h1 : dangerousPatterns.any
      (fun p => listContainsSub p.data (pyUpper (pyStripChars quoteChars name)).data) = true
  · rw [if_pos h1] at h; cases h
  · rw [if_neg h1, if_neg (by simp)] at h
    by_cases h2 : ((pyStripChars quoteChars name).data.all
        (fun c => c.isAlphanum || c = '_' || c = '.')) = true
    · rw [if_pos h2] at h
      injection h with h3
      rw [← h3]
      exact h2
    · rw [if_neg h2] at h; cases h

/-- The placeholder list `(?, ?, …)` joined by `", "` holds exactly one
question mark per element. -/
lemma count_join_placeholders : ∀ xs : List PyVal,
    (pyJoin ", " (xs.map fun _ => "?")).data.count '?' = xs.length := by
  intro xs
  induction xs with
  | nil => decide
  | cons x t ih =>
    cases t with
    | nil =>
      simp only [List.map_cons, List.map_nil, pyJoin, List.length_cons,
        List.length_nil]
      decide
    | cons y t2 =>
      rw [List.map_cons] at ih
      rw [List.map_cons, List.map_cons, pyJoin_cons2, String.data_append,
        String.data_append, List.count_append, List.count_append, ih]
      have h1 : List.count '?' "?".data = 1 := by decide
      have h2 : List.count '?' ", ".data = 0 := by decide
      rw [h1, h2]
      simp only [List.length_cons]
      omega

/-! ## The claims -/

/-- C9: `_convert_value` maps `None` to `None` and every bytes value to a
string — the whitespace-trimmed UTF-8 decoding when decoding succeeds, the
lowercase hex encoding when it fails; in particular the two bytes
`0xFF 0xFE` convert to the string `"fffe"`. -/
theorem c9_convert_value_null_and_bytes :
    convert_value .dbNull = .jNull ∧
    (∀ bs : List Nat, ∃ s : String, convert_value (.dbBytes bs) = .jStr s) ∧
    (∀ (bs : List Nat) (cs : List Char), utf8Decode? bs = some cs →
      convert_value (.dbBytes bs) = .jStr (pyStrip ⟨cs⟩)) ∧
    (∀ bs : List Nat, utf8Decode? bs = none →
      convert_value (.dbBytes bs) = .jStr (bytesHex bs)) ∧
    convert_value (.dbBytes [255, 254]) = .jStr "fffe" := by
  refine ⟨rfl, ?_, ?_, ?_, by decide⟩
  · intro bs
    rcases hdec : utf8Decode? bs with _ | cs <;>
      simp [convert_value, hdec]
  · intro bs cs hdec
    simp [convert_value, hdec]
  · intro bs hdec
    simp [convert_value, hdec]

/-- C9 witness: a decodable byte string takes the UTF-8 branch. -/
theorem c9_witness :
    utf8Decode? [97, 32] = some ['a', ' '] ∧
    convert_value (.dbBytes [97, 32]) = .jStr (pyStrip ⟨['a', ' ']⟩) :=
  ⟨by decide, c9_convert_value_null_and_bytes.2.2.1 [97, 32] ['a', ' '] (by decide)⟩

/-- C5: a request that fails compilation/validation is answered with
`success := false` and the raised message; the connection state is untouched
(no handle opened, closed or dropped, `created_at` and `consecutive_errors`
unchanged) and the driver is never invoked, so no retry can occur. -/
theorem c5_validation_failure_untouched (allowed : List String)
    (req : QueryRequest) (retryRemaining : Nat) (now : Int)
    (outcomes : List DriverOutcome) (s : ConnState) (m : String)
    (h : build_query allowed req = .error (.valueError m)) :
    execute allowed req retryRemaining now outcomes s =
      (⟨false, [], [], 0, some m⟩, s, 0) :=
  execute_validation_error allowed req retryRemaining now outcomes s m h

/-- C5 witness: a table outside the allowlist, with a live connection in the
slot; the response carries the allowlist message and the state is untouched. -/
theorem c5_witness :
    execute ["customer"] { table := "forbidden" } 1 0 [] ⟨some 3, 7, 1, 4, [2]⟩ =
      (⟨false, [], [], 0,
        some ("Table forbidden is not in agent allowed_tables. " ++
          "Add forbidden to agent_config.yaml and restart the agent. " ++
          "Current allowed tables: customer")⟩,
        ⟨some 3, 7, 1, 4, [2]⟩, 0) :=
  c5_validation_failure_untouched ["customer"] { table := "forbidden" } 1 0 []
    ⟨some 3, 7, 1, 4, [2]⟩ _ rfl

/-- C2 counterexample: an unexpected (non-driver) exception *does* change the
connection state — `consecutive_errors` is incremented before the error is
classified — refuting the claim that the state is left unchanged. -/
theorem c2_counterexample :
    (execute ["customer"] { table := "customer" } 1 0 [.otherErr "boom"]
        ⟨some 0, 0, 0, 1, []⟩).1 =
      ⟨false, [], [], 0, some "Unexpected error: boom"⟩ ∧
    (⟨some 0, 0, 0, 1, []⟩ : ConnState).consecutiveErrors = 0 ∧
    (execute ["customer"] { table := "customer" } 1 0 [.otherErr "boom"]
        ⟨some 0, 0, 0, 1, []⟩).2.1.consecutiveErrors = 1 :=
  ⟨rfl, rfl, rfl⟩

/-- C2 (amended): an unexpected error is returned as
`Unexpected error: …` without any retry; the connection handle is not dropped
and `created_at` is unchanged (when the live connection was not due for
recycling), but `consecutive_errors` is incremented by one. -/
theorem c2_unexpected_error_effect (allowed : List String) (req : QueryRequest)
    (retryRemaining : Nat) (now : Int) (m : String) (rest : List DriverOutcome)
    (s : ConnState) (h : Nat) (sp : String × List PyVal)
    (hq : build_query allowed req = .ok sp)
    (hc : s.conn = some h)
    (hage : ¬(MAX_CONNECTION_AGE < now - s.createdAt))
    (herr : s.consecutiveErrors < MAX_CONSECUTIVE_ERRORS) :
    execute allowed req retryRemaining now (.otherErr m :: rest) s =
      (⟨false, [], [], 0, some ("Unexpected error: " ++ m)⟩,
        { s with consecutiveErrors := s.consecutiveErrors + 1 }, 1) := by
  rw [execute_unexpected allowed req retryRemaining now m rest s sp hq,
    get_connection_live now s h hc hage herr]

/-- C2 witness: the amended statement at a concrete input. -/
theorem c2_witness :
    execute ["customer"] { table := "customer" } 1 5 [.otherErr "boom"]
        ⟨some 4, 2, 1, 9, [3]⟩ =
      (⟨false, [], [], 0, some "Unexpected error: boom"⟩,
        ⟨some 4, 2, 2, 9, [3]⟩, 1) :=
  c2_unexpected_error_effect ["customer"] { table := "customer" } 1 5 "boom" []
    ⟨some 4, 2, 1, 9, [3]⟩ 4 ("SELECT c.* FROM customer", []) rfl rfl
    (by decide) (by decide)

/-- C6 counterexample: an *empty* list is accepted by `_build_where` for the
`IN` operator — it emits `col IN ()` with zero placeholders instead of
raising a validation error, refuting the non-empty-list requirement. -/
theorem c6_counterexample :
    build_where { table := "customer",
                  filters := [{ column := "main_state", operator := "IN",
                                value := .pList [] }] } =
      .ok ("WHERE main_state IN ()", []) := rfl

/-- C6 (amended): for `IN`/`NOT IN` filters `_build_where` accepts the filter
exactly when its value is a list — possibly empty, a `ValueError` is raised
only for non-list values; a list of `n ≥ 0` elements emits `col OP (?, …)`
with exactly `n` placeholders (`n = 0` gives `col OP ()`) and appends the `n`
elements, in order, to the parameter list. -/
theorem c6_in_filter_list_requirement (col op : String) (v : PyVal)
    (colv : String) (hop : op = "IN" ∨ op = "NOT IN")
    (hcol : validate_identifier col false = .ok colv) :
    ((∀ xs : List PyVal, v ≠ .pList xs) →
      whereFilter ⟨col, op, v⟩ =
        .error (.valueError (op ++ " operator requires a list value"))) ∧
    (∀ xs : List PyVal, v = .pList xs →
      whereFilter ⟨col, op, v⟩ =
        .ok (colv ++ " " ++ op ++ " (" ++
          pyJoin ", " (xs.map fun _ => "?") ++ ")", xs) ∧
      (colv ++ " " ++ op ++ " (" ++
        pyJoin ", " (xs.map fun _ => "?") ++ ")").data.count '?' = xs.length) := by
  have hall := validate_strict_chars col colv hcol
  have hq : colv.data.count '?' = 0 := by
    refine List.count_eq_zero.mpr (fun hmem => ?_)
    have := List.all_eq_true.mp hall _ hmem
    simp at this
  have d1 : List.count '?' " ".data = 0 := by decide
  have d2 : List.count '?' "IN".data = 0 := by decide
  have d5 : List.count '?' "NOT IN".data = 0 := by decide
  have d3 : List.count '?' " (".data = 0 := by decide
  have d4 : List.count '?' ")".data = 0 := by decide
  rcases hop with rfl | rfl
  · constructor
    · intro hnl
      rw [show ("IN" ++ " operator requires a list value" : String) =
        "IN operator requires a list value" from rfl]
      rcases v with _ | b | n | str | xs
      case pList => exact absurd rfl (hnl xs)
      all_goals simp [whereFilter, hcol, bind, Except.bind]
    · rintro xs rfl
      have hassoc : colv ++ " IN (" ++ pyJoin ", " (List.replicate xs.length "?") ++ ")" =
          colv ++ " " ++ "IN" ++ " (" ++
            pyJoin ", " (List.replicate xs.length "?") ++ ")" := by
        simp only [String.append_assoc]
        rfl
      constructor
      · simp [whereFilter, hcol, hassoc, bind, Except.bind]
      · rw [String.data_append, String.data_append, String.data_append,
          String.data_append, String.data_append, List.count_append,
          List.count_append, List.count_append, List.count_append,
          List.count_append, hq, count_join_placeholders, d1, d2, d3, d4]
        omega
  · constructor
    · intro hnl
      rw [show ("NOT IN" ++ " operator requires a list value" : String) =
        "NOT IN operator requires a list value" from rfl]
      rcases v with _ | b | n | str | xs
      case pList => exact absurd rfl (hnl xs)
      all_goals simp [whereFilter, hcol, bind, Except.bind]
    · rintro xs rfl
      have hassoc : colv ++ " NOT IN (" ++
            pyJoin ", " (List.replicate xs.length "?") ++ ")" =
          colv ++ " " ++ "NOT IN" ++ " (" ++
            pyJoin ", " (List.replicate xs.length "?") ++ ")" := by
        simp only [String.append_assoc]
        rfl
      constructor
      · simp [whereFilter, hcol, hassoc, bind, Except.bind]
      · rw [String.data_append, String.data_append, String.data_append,
          String.data_append, String.data_append, List.count_append,
          List.count_append, List.count_append, List.count_append,
          List.count_append, hq, count_join_placeholders, d1, d5, d3, d4]
        omega

/-- C6 witness: the three-element `IN` filter from the spec example. -/
theorem c6_witness :
    whereFilter ⟨"main_state", "IN",
        .pList [.pStr "MA", .pStr "NY", .pStr "CT"]⟩ =
      .ok ("main_state" ++ " " ++ "IN" ++ " (" ++
        pyJoin ", " (([PyVal.pStr "MA", .pStr "NY", .pStr "CT"]).map fun _ => "?")
        ++ ")",
        [.pStr "MA", .pStr "NY", .pStr "CT"]) ∧
    ("main_state" ++ " " ++ "IN" ++ " (" ++
      pyJoin ", " (([PyVal.pStr "MA", .pStr "NY", .pStr "CT"]).map fun _ => "?")
      ++ ")").data.count '?' = 3 :=
  (c6_in_filter_list_requirement "main_state" "IN" _ "main_state"
    (Or.inl rfl) rfl).2 _ rfl

/-- C4: whenever `_get_connection` sees a live connection that is too old or
has accumulated too many consecutive errors, the old handle is closed and a
fresh handle (distinct from the prior one) is opened; and after any call that
opens a new connection, `created_at` is the current time and
`consecutive_errors` is zero. -/
theorem c4_recycling_fresh_connection :
    (∀ (now : Int) (s : ConnState) (h : Nat),
      s.conn = some h → h < s.nextHandle →
      (MAX_CONNECTION_AGE < now - s.createdAt ∨
        MAX_CONSECUTIVE_ERRORS ≤ s.consecutiveErrors) →
      (get_connection now false s).1 = s.nextHandle ∧
      (get_connection now false s).1 ≠ h ∧
      h ∈ (get_connection now false s).2.closedHandles ∧
      (get_connection now false s).2.conn = some s.nextHandle ∧
      (get_connection now false s).2.createdAt = now ∧
      (get_connection now false s).2.consecutiveErrors = 0) ∧
    (∀ (now : Int) (forceNew : Bool) (s : ConnState),
      (get_connection now forceNew s).2.nextHandle ≠ s.nextHandle →
      (get_connection now forceNew s).2.createdAt = now ∧
      (get_connection now forceNew s).2.consecutiveErrors = 0 ∧
      (get_connection now forceNew s).2.conn = some s.nextHandle) := by
  constructor
  · intro now s h hc hlt hrec
    have hb : (decide (MAX_CONNECTION_AGE < now - s.createdAt)
        || decide (MAX_CONSECUTIVE_ERRORS ≤ s.consecutiveErrors)) = true := by
      rcases hrec with h1 | h1 <;> simp [h1]
    have hres : get_connection now false s =
        (s.nextHandle,
          { conn := some s.nextHandle, createdAt := now, consecutiveErrors := 0,
            nextHandle := s.nextHandle + 1,
            closedHandles := s.closedHandles ++ [h] }) := by
      simp [get_connection, hc, hb, closeConn]
    rw [hres]
    exact ⟨rfl, by omega, by simp, rfl, rfl, rfl⟩
  · intro now forceNew s hne
    rcases hc : s.conn with _ | h
    · cases forceNew <;> simp [get_connection, hc, closeConn]
    · by_cases hb : (forceNew
          || (decide (MAX_CONNECTION_AGE < now - s.createdAt)
            || decide (MAX_CONSECUTIVE_ERRORS ≤ s.consecutiveErrors))) = true
      · simp [get_connection, hc, hb, closeConn]
      · rw [Bool.not_eq_true] at hb
        exact absurd (by simp [get_connection, hc, hb]) hne

/-- C4 witness: an over-age connection is recycled into a fresh handle. -/
theorem c4_witness :
    (get_connection 301 false ⟨some 7, 0, 0, 8, []⟩).1 = 8 ∧
    (get_connection 301 false ⟨some 7, 0, 0, 8, []⟩).1 ≠ 7 ∧
    7 ∈ (get_connection 301 false ⟨some 7, 0, 0, 8, []⟩).2.closedHandles ∧
    (get_connection 301 false ⟨some 7, 0, 0, 8, []⟩).2.conn = some 8 ∧
    (get_connection 301 false ⟨some 7, 0, 0, 8, []⟩).2.createdAt = 301 ∧
    (get_connection 301 false ⟨some 7, 0, 0, 8, []⟩).2.consecutiveErrors = 0 :=
  c4_recycling_fresh_connection.1 301 ⟨some 7, 0, 0, 8, []⟩ 7 rfl (by decide)
    (Or.inl (by decide))

/-- C8: `_validate_identifier` first strips surrounding quote characters and
raises `Invalid identifier` whenever the uppercased stripped name contains a
blocklisted pattern, in strict mode and in expression mode alike; in
particular any name containing `;`, `--`, `/*` or `*/` is rejected in both
modes, since those characters survive quote-stripping and upper-casing. -/
theorem c8_identifier_blocklist (name : String) (mode : Bool) :
    (dangerousPatterns.any (fun p =>
        listContainsSub p.data (pyUpper (pyStripChars quoteChars name)).data)
          = true →
      validate_identifier name mode =
        .error (.valueError
          ("Invalid identifier: " ++ pyStripChars quoteChars name))) ∧
    (∀ p, p ∈ ([";", "--", "/*", "*/"] : List String) →
      listContainsSub p.data name.data = true →
      validate_identifier name mode =
        .error (.valueError
          ("Invalid identifier: " ++ pyStripChars quoteChars name))) := by
  constructor
  · intro h1
    simp [validate_identifier, h1]
  · intro p hp hcont
    fin_cases hp <;>
    · have hstrip := listStripChars_keeps quoteChars _ name.data
        (by decide) (by decide) hcont
      have hmap := listContainsSub_map_fix Char.toUpper _ _ (by decide) hstrip
      have hany : dangerousPatterns.any (fun q =>
          listContainsSub q.data (pyUpper (pyStripChars quoteChars name)).data)
            = true :=
        List.any_eq_true.mpr ⟨_, by decide, hmap⟩
      simp [validate_identifier, hany]

/-- C8 witness: a semicolon inside an expression-mode identifier. -/
theorem c8_witness :
    validate_identifier "a;b" true =
      .error (.valueError
        ("Invalid identifier: " ++ pyStripChars quoteChars "a;b")) :=
  (c8_identifier_blocklist "a;b" true).2 ";" (by decide) (by decide)

/-- C7 counterexample: a 200 response whose body has `success := false` but a
missing error message is *returned*, not raised as a query error — refuting
the claim that every 200 response with `success:false` raises `QueryError`. -/
theorem c7_counterexample :
    clientQuery "http://agent" 30 (.httpResp 200 (some ⟨false, [], [], 0, none⟩)) =
      .ok ⟨false, [], [], 0, none⟩ := rfl

/-- C7 (amended): outcome classification of the client mirror — HTTP 401
raises the auth error; network failure, timeout, or any other non-2xx status
raises the connection error; a 2xx response with `success := false` *and a
non-empty error message* raises the query error, while `success := false`
with a missing or empty message is returned as-is; a 2xx response with
`success := true` is returned without raising.  (The final conjunct records
the model's behaviour for a 2xx response whose body fails to decode: the
generic handler wraps it as a connection error.) -/
theorem c7_client_outcome_classification (url : String) (timeoutS : Nat)
    (out : HttpOutcome) :
    (∀ m, out = .netFail m →
      ∃ e, clientQuery url timeoutS out = .error (.connError e)) ∧
    (out = .timedOut →
      ∃ e, clientQuery url timeoutS out = .error (.connError e)) ∧
    (∀ st b, out = .httpResp st b → st = 401 →
      clientQuery url timeoutS out =
        .error (.authError "Agent authentication failed - check API key")) ∧
    (∀ st b, out = .httpResp st b → st ≠ 401 → ¬(200 ≤ st ∧ st < 300) →
      ∃ e, clientQuery url timeoutS out = .error (.connError e)) ∧
    (∀ st r, out = .httpResp st (some r) → st ≠ 401 → 200 ≤ st → st < 300 →
      r.success = false → optStrTruthy r.error = true →
      clientQuery url timeoutS out = .error (.queryError (r.error.getD ""))) ∧
    (∀ st r, out = .httpResp st (some r) → st ≠ 401 → 200 ≤ st → st < 300 →
      (r.success = true ∨ optStrTruthy r.error = false) →
      clientQuery url timeoutS out = .ok r) ∧
    (∀ st, out = .httpResp st none → st ≠ 401 → 200 ≤ st → st < 300 →
      ∃ e, clientQuery url timeoutS out = .error (.connError e)) := by
  refine ⟨?_, ?_, ?_, ?_, ?_, ?_, ?_⟩
  · rintro m rfl; exact ⟨_, rfl⟩
  · rintro rfl; exact ⟨_, rfl⟩
  · rintro st b rfl rfl; simp [clientQuery]
  · rintro st b rfl hne hrange
    exact ⟨"Agent returned error: " ++ toString st,
      by cases b <;> simp [clientQuery, hne, hrange]⟩
  · rintro st r rfl hne hlo hhi hsucc htruthy
    simp [clientQuery, hne, hlo, hhi, hsucc, htruthy]
  · rintro st r rfl hne hlo hhi hor
    rcases hor with hsucc | htruthy
    · simp [clientQuery, hne, hlo, hhi, hsucc]
    · simp [clientQuery, hne, hlo, hhi, htruthy]
  · rintro st rfl hne hlo hhi
    exact ⟨"Unexpected error: invalid response body",
      by simp [clientQuery, hne, hlo, hhi]⟩

/-- C1: when `limit` is set, the compiled SQL rewrites the `SELECT` keyword
to `SELECT TOP {limit + (offset or 0)}`, and `execute` drops exactly the
first `offset` (or 0) fetched rows and returns the remainder converted —
which, assuming the driver returned at most `limit + offset` rows for the
`TOP` clause, contains at most `limit` rows, drawn starting at raw-fetch
position `offset + 1`. -/
theorem c1_top_rewrite_and_offset_slice (allowed : List String)
    (req : QueryRequest) (L : Nat) (sql : String) (params : List PyVal)
    (hL : req.limit = some L) (hpos : 1 ≤ L)
    (hq : build_query allowed req = .ok (sql, params)) :
    (∃ rest : List Char,
      sql.data =
        ("SELECT TOP " ++ toString (L + req.offset.getD 0)).data ++ rest) ∧
    (∀ (retryRemaining : Nat) (now : Int) (cols : List String)
        (rows : List (List DbVal)) (restOutcomes : List DriverOutcome)
        (s : ConnState),
      (execute allowed req retryRemaining now
          (.ok cols rows :: restOutcomes) s).1.rows =
        (rows.drop (req.offset.getD 0)).map (fun row => row.map convert_value) ∧
      (rows.length ≤ L + req.offset.getD 0 →
        (execute allowed req retryRemaining now
            (.ok cols rows :: restOutcomes) s).1.rows.length ≤ L)) := by
  obtain ⟨sel, fromClause, jp, wp, ob, hsel, hfrom, hjoins, hwhere, hob, hsql,
    hparams⟩ := build_query_inv allowed req sql params hq
  constructor
  · obtain ⟨t, ht⟩ := build_select_starts req sel hsel
    have htruthy : optTruthy req.limit = true := by
      rw [hL]
      simp [optTruthy]
      omega
    have hgetD : req.limit.getD 0 = L := by rw [hL]; rfl
    have hpre : ("SELECT".data).isPrefixOf sel.data = true := by
      rw [ List.isPrefixOf_iff_prefix, ht,
        show "SELECT ".data = "SELECT".data ++ [' '] from by decide,
        List.append_assoc]
      exact List.prefix_append _ _
    have hrep : (replaceFirst "SELECT"
        ("SELECT TOP " ++ toString (L + req.offset.getD 0)) sel).data =
        ("SELECT TOP " ++ toString (L + req.offset.getD 0)).data ++
          sel.data.drop 6 := by
      show (listReplaceFirst "SELECT".data _ sel.data) = _
      rw [listReplaceFirst_of_isPrefixOf _ _ _ (by decide) hpre]
      rfl
    rw [hsql]
    simp only [assembledSql, htruthy, if_true, hgetD, List.cons_append,
      List.nil_append]
    rw [pyJoin_cons2, String.data_append, String.data_append, hrep]
    exact ⟨List.drop 6 sel.data ++ ' ' :: (pyJoin " " (fromClause ::
        ((if jp.1 = "" then [] else [jp.1]) ++
          ((if wp.1 = "" then [] else [wp.1]) ++
            if ob = "" then [] else [ob])))).data,
      by simp [List.append_assoc]⟩
  · intro retryRemaining now cols rows restOutcomes s
    rw [execute_success allowed req retryRemaining now cols rows restOutcomes
      s (sql, params) hq]
    refine ⟨rfl, ?_⟩
    intro hlen
    simp only [List.length_map, List.length_drop]
    omega

/-- C1 witness: `limit = 2, offset = 1` compiles to `SELECT TOP 3 …` and a
three-row fetch yields the rows at raw positions 2 and 3. -/
theorem c1_witness :
    (∃ rest : List Char,
      ("SELECT TOP 3 c.* FROM customer").data =
        ("SELECT TOP " ++ toString (2 + 1)).data ++ rest) ∧
    (execute ["customer"]
        { table := "customer", limit := some 2, offset := some 1 } 1 0
        [.ok ["a"] [[.dbInt 10], [.dbInt 20], [.dbInt 30]]]
        ⟨none, 0, 0, 0, []⟩).1.rows =
      [[JVal.jInt 20], [JVal.jInt 30]] ∧
    (execute ["customer"]
        { table := "customer", limit := some 2, offset := some 1 } 1 0
        [.ok ["a"] [[.dbInt 10], [.dbInt 20], [.dbInt 30]]]
        ⟨none, 0, 0, 0, []⟩).1.rows.length ≤ 2 := by
  have h := c1_top_rewrite_and_offset_slice ["customer"]
    { table := "customer", limit := some 2, offset := some 1 } 2
    "SELECT TOP 3 c.* FROM customer" [] rfl (by decide) rfl
  refine ⟨h.1, ?_, ?_⟩
  · rw [(h.2 1 0 ["a"] [[.dbInt 10], [.dbInt 20], [.dbInt 30]] []
      ⟨none, 0, 0, 0, []⟩).1]
    decide
  · exact (h.2 1 0 ["a"] [[.dbInt 10], [.dbInt 20], [.dbInt 30]] []
      ⟨none, 0, 0, 0, []⟩).2 (by decide)

/-- C10: when `offset` is set but `limit` is not, the compiled SQL begins
with the *unmodified* select clause (no `TOP` rewrite), yet `execute` still
discards the first `offset` fetched rows before converting and returning
them — the skip is unconditional, and the returned row set is everything
after the offset with no upper bound on its size. -/
theorem c10_offset_without_limit (allowed : List String) (req : QueryRequest)
    (o : Nat) (sql : String) (params : List PyVal)
    (hL : req.limit = none) (hoff : req.offset = some o)
    (hq : build_query allowed req = .ok (sql, params)) :
    (∃ sel rest, build_select req = .ok sel ∧ sql.data = sel.data ++ rest) ∧
    (∀ (retryRemaining : Nat) (now : Int) (cols : List String)
        (rows : List (List DbVal)) (restOutcomes : List DriverOutcome)
        (s : ConnState),
      (execute allowed req retryRemaining now
          (.ok cols rows :: restOutcomes) s).1.success = true ∧
      (execute allowed req retryRemaining now
          (.ok cols rows :: restOutcomes) s).1.rows =
        (rows.drop o).map (fun row => row.map convert_value) ∧
      (execute allowed req retryRemaining now
          (.ok cols rows :: restOutcomes) s).1.rows.length =
        rows.length - o) := by
  obtain ⟨sel, fromClause, jp, wp, ob, hsel, hfrom, hjoins, hwhere, hob, hsql,
    hparams⟩ := build_query_inv allowed req sql params hq
  constructor
  · have htruthy : optTruthy req.limit = false := by rw [hL]; rfl
    rw [hsql]
    simp only [assembledSql, htruthy, Bool.false_eq_true, if_false,
      List.cons_append, List.nil_append]
    rw [pyJoin_cons2, String.data_append, String.data_append]
    exact ⟨sel, ' ' :: (pyJoin " " (fromClause ::
        ((if jp.1 = "" then [] else [jp.1]) ++
          ((if wp.1 = "" then [] else [wp.1]) ++
            if ob = "" then [] else [ob])))).data, hsel,
      by simp [List.append_assoc]⟩
  · intro retryRemaining now cols rows restOutcomes s
    rw [execute_success allowed req retryRemaining now cols rows restOutcomes
      s (sql, params) hq]
    rw [hoff]
    exact ⟨rfl, rfl, by simp only [List.length_map, List.length_drop,
      Option.getD_some]⟩

/-- C10 witness: `offset = 1`, no `limit`: the compiled SQL starts with the
plain select clause and a three-row fetch returns both remaining rows. -/
theorem c10_witness :
    (∃ sel rest,
      build_select { table := "customer", offset := some 1 } = .ok sel ∧
      ("SELECT c.* FROM customer").data = sel.data ++ rest) ∧
    (execute ["customer"] { table := "customer", offset := some 1 } 1 0
        [.ok ["a"] [[.dbInt 10], [.dbInt 20], [.dbInt 30]]]
        ⟨none, 0, 0, 0, []⟩).1.rows.length = 3 - 1 := by
  have h := c10_offset_without_limit ["customer"]
    { table := "customer", offset := some 1 } 1
    "SELECT c.* FROM customer" [] rfl rfl rfl
  exact ⟨h.1, (h.2 1 0 ["a"] [[.dbInt 10], [.dbInt 20], [.dbInt 30]] []
    ⟨none, 0, 0, 0, []⟩).2.2⟩

/-- C3: with the single retry budget of the public entry point, `execute`
hands the compiled statement to the driver at most twice; a second attempt
happens exactly when compilation succeeded and the first attempt failed with
a driver error whose message is connection-classified; and two consecutive
connection-classified driver failures produce exactly one retry and a
`Database error` response carrying the second message — never a third
attempt. -/
theorem c3_single_retry (allowed : List String) (req : QueryRequest)
    (now : Int) (outcomes : List DriverOutcome) (s : ConnState) :
    (execute allowed req 1 now outcomes s).2.2 ≤ 2 ∧
    ((execute allowed req 1 now outcomes s).2.2 = 2 ↔
      ((∃ sp, build_query allowed req = .ok sp) ∧
        ∃ m, outcomes.headD (.ok [] []) = .driverErr m ∧
          is_connection_error m = true)) ∧
    (∀ m1 m2 (sp : String × List PyVal), build_query allowed req = .ok sp →
      outcomes = [.driverErr m1, .driverErr m2] →
      is_connection_error m1 = true → is_connection_error m2 = true →
      (execute allowed req 1 now outcomes s).1 =
        ⟨false, [], [], 0, some ("Database error: " ++ m2)⟩ ∧
      (execute allowed req 1 now outcomes s).2.2 = 2) := by
  rcases hb : build_query allowed req with e | sp
  · rcases e with m | _
    · rw [execute_validation_error allowed req 1 now outcomes s m hb]
      refine ⟨by simp, ?_, ?_⟩
      · constructor
        · intro h2
          simp at h2
        · rintro ⟨⟨sp, hsp⟩, -⟩
          cases hsp
      · intro m1 m2 sp hsp
        cases hsp
    · rw [execute_index_error allowed req 1 now outcomes s hb]
      refine ⟨by simp, ?_, ?_⟩
      · constructor
        · intro h2
          simp at h2
        · rintro ⟨⟨sp, hsp⟩, -⟩
          cases hsp
      · intro m1 m2 sp hsp
        cases hsp
  · rcases ho : outcomes with _ | ⟨o1, rest⟩
    · rw [execute_nil allowed req 1 now s sp hb]
      refine ⟨by simp, ?_, ?_⟩
      · constructor
        · intro h2
          simp at h2
        · rintro ⟨-, m', hm', -⟩
          simp at hm'
      · intro m1 m2 sp2 hsp2 houts
        cases houts
    · rcases o1 with ⟨cols, rows⟩ | m | m
      · rw [execute_success allowed req 1 now cols rows rest s sp hb]
        refine ⟨by simp, ?_, ?_⟩
        · constructor
          · intro h2
            simp at h2
          · rintro ⟨-, m', hm', -⟩
            simp at hm'
        · intro m1 m2 sp2 hsp2 houts
          cases houts
      · by_cases hc : is_connection_error m = true
        · rw [execute_retry_driver allowed req 0 now m rest s sp hb hc]
          simp only
          have hattempts := execute_false_attempts allowed req now rest
            { (get_connection now false s).2 with
                consecutiveErrors :=
                  (get_connection now false s).2.consecutiveErrors + 1,
                conn := none } sp hb
          refine ⟨by simp [hattempts], ?_, ?_⟩
          · constructor
            · intro h2
              exact ⟨⟨sp, rfl⟩, m, rfl, hc⟩
            · intro h2
              simp [hattempts]
          · rintro m1 m2 sp2 hsp2 houts hc1 hc2
            injection houts with hm1 hrest
            injection hm1 with hm1
            subst hm1
            subst hrest
            rw [execute_noretry_driver allowed req now m2 [] _ sp hb]
            have hattempts2 := execute_false_attempts allowed req now
              [DriverOutcome.driverErr m2]
              { (get_connection now false s).2 with
                  consecutiveErrors :=
                    (get_connection now false s).2.consecutiveErrors + 1,
                  conn := none } sp hb
            rw [execute_noretry_driver allowed req now m2 [] _ sp hb] at hattempts2
            exact ⟨rfl, by simp⟩
        · rw [Bool.not_eq_true] at hc
          rw [execute_driver_notconn allowed req 0 now m rest s sp hb hc]
          refine ⟨by simp, ?_, ?_⟩
          · constructor
            · intro h2
              simp at h2
            · rintro ⟨-, m', hm', hcm'⟩
              simp only [List.headD_cons] at hm'
              injection hm' with hmm
              subst hmm
              rw [hc] at hcm'
              cases hcm'
          · rintro m1 m2 sp2 hsp2 houts hc1 hc2
            injection houts with hm1 hrest
            injection hm1 with hm1
            subst hm1
            rw [hc] at hc1
            cases hc1
      · rw [execute_unexpected allowed req 1 now m rest s sp hb]
        refine ⟨by simp, ?_, ?_⟩
        · constructor
          · intro h2
            simp at h2
          · rintro ⟨-, m', hm', -⟩
            simp at hm'
        · intro m1 m2 sp2 hsp2 houts
          cases houts

/-- C3 witness: two consecutive connection-classified driver failures give
exactly two attempts and the second failure's database-error response. -/
theorem c3_witness :
    (execute ["customer"] { table := "customer" } 1 0
        [.driverErr "Communication link failure", .driverErr "Connection closed"]
        ⟨some 7, 0, 0, 8, []⟩).1 =
      ⟨false, [], [], 0, some "Database error: Connection closed"⟩ ∧
    (execute ["customer"] { table := "customer" } 1 0
        [.driverErr "Communication link failure", .driverErr "Connection closed"]
        ⟨some 7, 0, 0, 8, []⟩).2.2 = 2 := by
  have h := (c3_single_retry ["customer"] { table := "customer" } 0
    [.driverErr "Communication link failure", .driverErr "Connection closed"]
    ⟨some 7, 0, 0, 8, []⟩).2.2 "Communication link failure" "Connection closed"
    ("SELECT c.* FROM customer", []) rfl rfl (by decide) (by decide)
  exact ⟨h.1, h.2⟩

/-- C7 witness: the amended classification at concrete outcomes. -/
theorem c7_witness :
    clientQuery "http://agent" 30 (.httpResp 401 none) =
      .error (.authError "Agent authentication failed - check API key") ∧
    clientQuery "http://agent" 30 (.httpResp 200 (some ⟨false, [], [], 0, some "bad"⟩)) =
      .error (.queryError "bad") ∧
    clientQuery "http://agent" 30 (.httpResp 200 (some ⟨true, ["c"], [], 0, none⟩)) =
      .ok ⟨true, ["c"], [], 0, none⟩ :=
  ⟨(c7_client_outcome_classification "http://agent" 30 (.httpResp 401 none)).2.2.1
      401 none rfl rfl,
    (c7_client_outcome_classification "http://agent" 30
        (.httpResp 200 (some ⟨false, [], [], 0, some "bad"⟩))).2.2.2.2.1
      200 ⟨false, [], [], 0, some "bad"⟩ rfl (by decide) (by decide) (by decide)
      rfl (by decide),
    (c7_client_outcome_classification "http://agent" 30
        (.httpResp 200 (some ⟨true, ["c"], [], 0, none⟩))).2.2.2.2.2.1
      200 ⟨true, ["c"], [], 0, none⟩ rfl (by decide) (by decide) (by decide)
      (Or.inl rfl)⟩

end GlassTrax
